import Mathlib

/-!
Verification of the silo bring-up and sizing code in
`src/bin/varnishd/storage/mgt_storage_persistent.c`.

The first part embeds `smp_metrics` (lines 75-134): the pure sizing
derivation from the usable data capacity (`smp_stuff_len(sc, SMP_SPC_STUFF)`),
the segment-table capacity (`smp_stuff_len(sc, SMP_SEG1_STUFF)`) and the
minimal record size (`sizeof(struct object)`).  Those three quantities are
supplied by collaborators outside this translation unit, so they appear here
as parameters `spc`, `seg1` and `objsize`, exactly as the specification's
SegmentSizer treats them (spec section 4.5).

The second part embeds the control flow of `smp_mgt_init` (lines 140-264)
over oracle results for the external collaborators (file resolution, `read`,
`mmap`, the format validator and reinitializer).
-/

namespace Smp

/-- The sizing fields of `struct smp_sc` that `smp_metrics` fills in.
In the C source `min_nseg`, `max_nseg`, `aim_nseg` are `unsigned` (printed
with `%u`) and the four byte-length fields are 64-bit (printed through
`(uintmax_t)` casts). -/
structure SmpSC where
  min_nseg : Nat
  max_nseg : Nat
  aim_nseg : Nat
  min_segl : Nat
  max_segl : Nat
  aim_segl : Nat
  free_reserve : Nat
deriving DecidableEq

/-- The `while (sc->min_segl < sizeof(struct object))` loop of `smp_metrics`
(lines 102-107), including the `min_segl` computation of line 102 performed
with the current `max_nseg` on entry.  The first argument is fuel: the loop
body halves `nseg`, so `nseg` itself bounds the number of iterations and the
function is extensionally the C loop whenever `nseg ≤ fuel`.  A `none` result
models the division `spc / 0`, which in C is an unsigned division by zero
(undefined behaviour, in practice a fault): it occurs exactly when `nseg`
reaches `0` before the loop condition becomes false. -/
def halveAux (spc objsize : Nat) : Nat → Nat → Option (Nat × Nat)
  | _, 0 => none
  | 0, _ + 1 => none
  | f + 1, n + 1 =>
    if spc / (n + 1) < objsize then halveAux spc objsize f ((n + 1) / 2)
    else some (n + 1, spc / (n + 1))

/-- The halving loop started on `nseg` with enough fuel. -/
def smp_halve_loop (spc objsize nseg : Nat) : Option (Nat × Nat) :=
  halveAux spc objsize nseg nseg

/-- Embedding of `smp_metrics` (lines 75-134).  `spc` is
`smp_stuff_len(sc, SMP_SPC_STUFF)`, `seg1` is
`smp_stuff_len(sc, SMP_SEG1_STUFF)` (both 64-bit), `objsize` is
`sizeof(struct object)`.  The assignment `sc->max_nseg = seg1 / min_nseg`
stores a 64-bit quotient into an `unsigned`, hence the `% 2 ^ 32`; the
assignment `sc->free_reserve = sc->aim_segl * 10` multiplies 64-bit values,
hence the `% 2 ^ 64`.  The C code computes `aim_nseg` as
`(unsigned)exp((log(min_nseg) + log(max_nseg))*.5)`; with `log`/`exp` read
as exact real functions this is the truncation of the real geometric mean,
i.e. `Nat.sqrt (min_nseg * max_nseg)`.  A `none` result models the division
by zero described at `halveAux`. -/
def smp_metrics (spc seg1 objsize : Nat) : Option SmpSC :=
  let min_nseg : Nat := 10
  let max_segl : Nat := spc / min_nseg
  match smp_halve_loop spc objsize (seg1 / min_nseg % 2 ^ 32) with
  | none => none
  | some (max_nseg, min_segl) =>
    let aim_nseg : Nat := Nat.sqrt (min_nseg * max_nseg)
    let aim_segl : Nat := spc / aim_nseg
    some { min_nseg := min_nseg, max_nseg := max_nseg, aim_nseg := aim_nseg,
           min_segl := min_segl, max_segl := max_segl, aim_segl := aim_segl,
           free_reserve := aim_segl * 10 % 2 ^ 64 }

/-- Modelled from the spec: the specification's formula for the aim point,
`round(exp((ln a + ln b) / 2))`, i.e. the geometric mean `sqrt (a * b)`
rounded to the NEAREST integer (the source instead truncates).  For
`m = Nat.sqrt n` one has `round (Real.sqrt n) = m + 1` iff
`n > m * m + m`, since `(m + 1 / 2) ^ 2 = m * m + m + 1 / 4`. -/
def roundGeomMean (a b : Nat) : Nat :=
  let n := a * b
  let m := Nat.sqrt n
  if m * m + m < n then m + 1 else m

/-- The sizing record produced on the specification's reference scenario
`spc = 100 MiB`, `seg1 = 1 MiB`, `objsize = 64`. -/
def rbig : SmpSC :=
  ⟨10, 104857, 1023, 1000, 10485760, 102500, 1025000⟩

/-- The sizing record produced on a one-page silo: `spc = 4096`,
`seg1 = 4096`, `objsize = 512`.  The halving loop runs
`409 → 204 → 102 → 51 → 25 → 12 → 6` and stops below `min_nseg = 10`. -/
def rsmall : SmpSC :=
  ⟨10, 6, 7, 682, 409, 585, 5850⟩

/-! ### Embedding of `smp_mgt_init` (lines 140-264)

The bring-up routine drives external collaborators whose code is outside
this translation unit: `STV_GetFile`/`STV_FileSize` (file resolution),
`read`, `mmap`, and the format validator `smp_valid_silo` with its
reinitializer `smp_newsilo`.  Modelled from the spec: those collaborators
are oracles (spec sections 4.1-4.4, 6) whose results are fields of
`InitEnv`; the validator returns `0` for "valid" and a nonzero reason code
otherwise, and validation is deterministic in the silo contents, so one
field gives the result on the freshly mapped contents and one the result
after `smp_newsilo` rewrote them. -/

/-- Externally visible steps that `smp_mgt_init` performs, in order. -/
inductive InitAction where
  /-- the `ftruncate(sc->fd, sc->mediasize)` call (line 198) -/
  | truncateFile : InitAction
  /-- the `mmap` call (line 237) -/
  | mmapCall : InitAction
  /-- the non-fatal `WARNING: Persistent silo lost to ASLR` (lines 243-245) -/
  | driftWarning : InitAction
  /-- the non-fatal `Warning SILO (...) not reloaded` (lines 252-253) -/
  | notReloaded : InitAction
  /-- the `smp_newsilo(sc)` reinitialization (line 254) -/
  | newSilo : InitAction
  /-- the `smp_metrics(sc)` call (line 258) -/
  | metricsCall : InitAction
deriving DecidableEq

/-- The ways `smp_mgt_init` aborts.  The two `ARGV_ERR` calls on lines
186-191 are the spec's `ConfigurationError`; `argvMmapFailed` is the
`ARGV_ERR` on line 241; the `assert*` constructors model failed `assert`
(line 202) and `AZ` (line 256) checks, which abort the process. -/
inductive InitError where
  /-- `ARGV_ERR("(-spersistent) wrong number of arguments")` (line 187) -/
  | argvArity : InitError
  /-- `ARGV_ERR("(-spersistent) need filename (not directory)")` (line 191) -/
  | argvDirectory : InitError
  /-- `ARGV_ERR("(-spersistent) failed to mmap ...")` (line 241) -/
  | argvMmapFailed : InitError
  /-- `assert(i == sizeof sgn)` fails (line 202): the `read` of the
  identity record came back short -/
  | assertReadShort : InitError
  /-- `AZ(smp_valid_silo(sc))` fails (line 256): the silo is still invalid
  after `smp_newsilo` -/
  | assertValidFailed : InitError
deriving DecidableEq

/-- Inputs and oracle results for one run of `smp_mgt_init`. -/
structure InitEnv where
  /-- argument count `ac` -/
  ac : Nat
  /-- return value of `STV_GetFile` (`2` means the path is a directory) -/
  getFileRes : Nat
  /-- `sc->mediasize` as resolved by `STV_FileSize` -/
  mediasize : Nat
  /-- `sizeof(struct smp_sign)` (a positive platform constant) -/
  signSize : Nat
  /-- whether `memcmp(sgn.ident, "SILO", 5)` found the magic tag -/
  sgnIsSilo : Bool
  /-- the `sgn.mapped` field of the identity record read from the file -/
  sgnMapped : Nat
  /-- result of `mmap`: `none` is `MAP_FAILED`, `some a` a mapping at `a` -/
  mmapRes : Option Nat
  /-- `smp_valid_silo` reason code on the freshly mapped contents -/
  validFresh : Nat
  /-- `smp_valid_silo` reason code after `smp_newsilo` rewrote the silo -/
  validAfterNew : Nat

/-- Embedding of the control flow of `smp_mgt_init` (lines 140-264),
returning the actions performed and either the error that aborted bring-up
or the base address of the finished mapping.

Modelled from the spec for the collaborators: `read` on the file just
truncated to `mediasize` returns `min signSize mediasize` bytes, so the
`assert(i == sizeof sgn)` on line 202 passes exactly when
`signSize ≤ mediasize`.  The preferred target is the recorded address
when the magic matched (lines 203-206); note `target = NULL` — i.e. a
recorded address of `0` — is treated as "no preferred target" by the
`if (target)` test on line 209.  The ASLR-drift warning fires exactly
when a preferred target existed and the mapping landed elsewhere
(lines 243-245).  A nonzero first validation prints the non-fatal
"not reloaded" warning and reinitializes via `smp_newsilo` (lines 250-255);
the `AZ` on line 256 then re-validates and aborts if still invalid. -/
def targetOf (e : InitEnv) : Option Nat :=
  if e.sgnIsSilo ∧ e.sgnMapped ≠ 0 then some e.sgnMapped else none

/-- The `if (target != NULL && sc->base != target)` warning of lines
243-245. -/
def driftActions (target : Option Nat) (base : Nat) : List InitAction :=
  if target ≠ none ∧ target ≠ some base then [.driftWarning] else []

def smp_mgt_init (e : InitEnv) : List InitAction × Except InitError Nat :=
  if e.ac ≠ 2 then ([], .error .argvArity)
  else if e.getFileRes = 2 then ([], .error .argvDirectory)
  else if e.mediasize < e.signSize then
    ([.truncateFile], .error .assertReadShort)
  else
    match e.mmapRes with
    | none => ([.truncateFile, .mmapCall], .error .argvMmapFailed)
    | some base =>
      let drift := driftActions (targetOf e) base
      if e.validFresh ≠ 0 then
        if e.validAfterNew ≠ 0 then
          ([.truncateFile, .mmapCall] ++ drift ++ [.notReloaded, .newSilo],
           .error .assertValidFailed)
        else
          ([.truncateFile, .mmapCall] ++ drift ++
             [.notReloaded, .newSilo, .metricsCall],
           .ok base)
      else
        ([.truncateFile, .mmapCall] ++ drift ++ [.metricsCall], .ok base)

/-- Oracle results exercising the address-drift path: a valid "SILO"
signature recorded address `4096`, but the mapping lands at `65536`, and
validation of the (relocated) silo succeeds. -/
def envDrift : InitEnv :=
  ⟨2, 0, 8192, 512, true, 4096, some 65536, 0, 0⟩

/-- Oracle results exercising the stale-silo path: no usable signature,
first validation fails with reason `7`, and the silo is still invalid
(reason `3`) even after `smp_newsilo`. -/
def envStale : InitEnv :=
  ⟨2, 0, 8192, 512, false, 0, some 32768, 7, 3⟩

/-- Oracle results for a path specification that names a directory:
`STV_GetFile` returns `2`. -/
def envDir : InitEnv :=
  ⟨2, 2, 8192, 512, false, 0, none, 0, 0⟩

/-- Oracle results for a backing file sized below the identity record:
`mediasize = 64` but `sizeof(struct smp_sign) = 512`. -/
def envTiny : InitEnv :=
  ⟨2, 0, 64, 512, false, 0, none, 0, 0⟩

/-! Basic facts about the halving loop. -/

/-- Exit invariant of the halving loop: a normal exit returns a positive
`max_nseg` bounded by the entry value, together with
`min_segl = spc / max_nseg ≥ objsize`. -/
theorem halveAux_sound (spc objsize : Nat) :
    ∀ f n m s, halveAux spc objsize f n = some (m, s) →
      s = spc / m ∧ objsize ≤ s ∧ 0 < m ∧ m ≤ n := by
  intro f
  induction f with
  | zero =>
    intro n m s h
    cases n with
    | zero => simp [halveAux] at h
    | succ k => simp [halveAux] at h
  | succ f ih =>
    intro n m s h
    cases n with
    | zero => simp [halveAux] at h
    | succ k =>
      rw [halveAux] at h
      by_cases hc : spc / (k + 1) < objsize
      · rw [if_pos hc] at h
        obtain ⟨h1, h2, h3, h4⟩ := ih _ _ _ h
        have h5 : (k + 1) / 2 ≤ k + 1 := Nat.div_le_self _ _
        exact ⟨h1, h2, h3, by omega⟩
      · rw [if_neg hc] at h
        injection h with h
        injection h with hm hs
        subst hm
        subst hs
        exact ⟨rfl, Nat.le_of_not_lt hc, Nat.succ_pos _, Nat.le_refl _⟩

/-- The halving loop exits normally whenever it starts on a positive `nseg`
with enough fuel and `spc` can hold at least one record: in the worst case it
stops at `nseg = 1`, where `min_segl = spc / 1 = spc ≥ objsize`. -/
theorem halveAux_isSome (spc objsize : Nat) :
    ∀ f n, 0 < n → n ≤ f → objsize ≤ spc →
      ∃ m s, halveAux spc objsize f n = some (m, s) := by
  intro f
  induction f with
  | zero =>
    intro n hn hf _
    omega
  | succ f ih =>
    intro n hn hf hobj
    cases n with
    | zero => omega
    | succ k =>
      rw [halveAux]
      by_cases hc : spc / (k + 1) < objsize
      · rw [if_pos hc]
        have hk : 0 < k := by
          rcases Nat.eq_zero_or_pos k with rfl | hk
          · simp at hc; omega
          · exact hk
        exact ih ((k + 1) / 2) (by omega) (by omega) hobj
      · rw [if_neg hc]
        exact ⟨k + 1, spc / (k + 1), rfl⟩

/-- When `spc` cannot hold even one record, no quotient `spc / n` ever
reaches `objsize`, so the loop halves `max_nseg` all the way to `0` and
faults. -/
theorem halveAux_none (spc objsize : Nat) (hlt : spc < objsize) :
    ∀ f n, halveAux spc objsize f n = none := by
  intro f
  induction f with
  | zero =>
    intro n
    cases n with
    | zero => rfl
    | succ k => rfl
  | succ f ih =>
    intro n
    cases n with
    | zero => rfl
    | succ k =>
      rw [halveAux, if_pos (lt_of_le_of_lt (Nat.div_le_self spc (k + 1)) hlt)]
      exact ih _

/-- Shape of every successful run of `smp_metrics`. -/
theorem smp_metrics_some_inv (spc seg1 objsize : Nat) (r : SmpSC)
    (h : smp_metrics spc seg1 objsize = some r) :
    ∃ m s, smp_halve_loop spc objsize (seg1 / 10 % 2 ^ 32) = some (m, s) ∧
      r = ⟨10, m, Nat.sqrt (10 * m), s, spc / 10, spc / Nat.sqrt (10 * m),
           spc / Nat.sqrt (10 * m) * 10 % 2 ^ 64⟩ := by
  simp only [smp_metrics] at h
  cases hl : smp_halve_loop spc objsize (seg1 / 10 % 2 ^ 32) with
  | none => rw [hl] at h; exact absurd h (by simp)
  | some p =>
    rw [hl] at h
    cases p with
    | mk m s =>
      refine ⟨m, s, rfl, ?_⟩
      simp only at h
      exact (Option.some_inj.mp h).symm

/-- Conversely, a successful halving loop determines the whole record. -/
theorem smp_metrics_eq_some (spc seg1 objsize m s : Nat)
    (h : smp_halve_loop spc objsize (seg1 / 10 % 2 ^ 32) = some (m, s)) :
    smp_metrics spc seg1 objsize =
      some ⟨10, m, Nat.sqrt (10 * m), s, spc / 10, spc / Nat.sqrt (10 * m),
            spc / Nat.sqrt (10 * m) * 10 % 2 ^ 64⟩ := by
  simp only [smp_metrics]
  rw [h]

/-! Concrete evaluations used by the claims. -/

theorem sqrt_1048570 : Nat.sqrt 1048570 = 1023 :=
  (Nat.eq_sqrt.mpr (by norm_num)).symm

theorem sqrt_60 : Nat.sqrt 60 = 7 :=
  (Nat.eq_sqrt.mpr (by norm_num)).symm

/-- The reference scenario of the spec (section 8): a 100 MiB data region
with a 1 MiB segment table and 64-byte minimal records. -/
theorem smp_metrics_big : smp_metrics 104857600 1048576 64 = some rbig := by
  have h := smp_metrics_eq_some 104857600 1048576 64 104857 1000 (by decide)
  rw [show (10 : Nat) * 104857 = 1048570 by norm_num, sqrt_1048570] at h
  rw [h]
  norm_num [rbig]

/-- A one-page silo: the halving loop drives `max_nseg` down to `6`. -/
theorem smp_metrics_small : smp_metrics 4096 4096 512 = some rsmall := by
  have h := smp_metrics_eq_some 4096 4096 512 6 682 (by decide)
  rw [show (10 : Nat) * 6 = 60 by norm_num, sqrt_60] at h
  rw [h]
  norm_num [rsmall]

/-! ### Claim C1 -/

/-- Claim C1, counterexample: on the silo `spc = 4096`, `seg1 = 4096`,
`objsize = 512` (one page of data capacity, positive minimal record size)
the derivation yields `min_nseg = 10`, `aim_nseg = 7`, `max_nseg = 6`,
`min_segl = 682`, `aim_segl = 585`, `max_segl = 409`: both claimed chains
`min_nseg ≤ aim_nseg ≤ max_nseg` and `min_segl ≤ aim_segl ≤ max_segl`
fail. -/
theorem c1_bounds_counterexample :
    smp_metrics 4096 4096 512 = some rsmall ∧
    ¬ (rsmall.min_nseg ≤ rsmall.aim_nseg ∧ rsmall.aim_nseg ≤ rsmall.max_nseg) ∧
    ¬ (rsmall.min_segl ≤ rsmall.aim_segl ∧ rsmall.aim_segl ≤ rsmall.max_segl) :=
  ⟨smp_metrics_small, by decide, by decide⟩

/-- Claim C1, amended: whenever the derivation completes and the halving
loop has not pushed `max_nseg` below the floor `min_nseg = 10`, both chains
`min_nseg ≤ aim_nseg ≤ max_nseg` and `min_segl ≤ aim_segl ≤ max_segl`
hold. -/
theorem c1_bounds_amended (spc seg1 objsize : Nat) (r : SmpSC)
    (h : smp_metrics spc seg1 objsize = some r) (hm : 10 ≤ r.max_nseg) :
    r.min_nseg ≤ r.aim_nseg ∧ r.aim_nseg ≤ r.max_nseg ∧
    r.min_segl ≤ r.aim_segl ∧ r.aim_segl ≤ r.max_segl := by
  obtain ⟨m, s, hl, hr⟩ := smp_metrics_some_inv _ _ _ _ h
  subst hr
  simp only at hm ⊢
  have h10 : 10 ≤ Nat.sqrt (10 * m) := Nat.le_sqrt.mpr (by omega)
  have hup : Nat.sqrt (10 * m) ≤ m := by
    have h1 : 10 * m ≤ m * m := Nat.mul_le_mul_right m hm
    have h2 : 10 * m < (m + 1) * (m + 1) := by nlinarith
    exact Nat.lt_succ_iff.mp (Nat.sqrt_lt.mpr h2)
  obtain ⟨hs, _, _, _⟩ := halveAux_sound spc objsize _ _ _ _ hl
  refine ⟨h10, hup, ?_, ?_⟩
  · rw [hs]
    exact Nat.div_le_div_left hup (by omega)
  · exact Nat.div_le_div_left h10 (by norm_num)

/-- Claim C1, witness: the amended statement on the spec's reference
scenario, where `max_nseg = 104857 ≥ 10`. -/
theorem c1_bounds_witness :
    smp_metrics 104857600 1048576 64 = some rbig ∧ 10 ≤ rbig.max_nseg ∧
    (rbig.min_nseg ≤ rbig.aim_nseg ∧ rbig.aim_nseg ≤ rbig.max_nseg ∧
     rbig.min_segl ≤ rbig.aim_segl ∧ rbig.aim_segl ≤ rbig.max_segl) :=
  ⟨smp_metrics_big, by decide,
   c1_bounds_amended 104857600 1048576 64 rbig smp_metrics_big (by decide)⟩

/-! ### Claim C2 -/

/-- Claim C2, counterexample: with `usable_data_capacity = 0`,
`segment_table_capacity = 10` and `minimal_record_size = 1 > 0`, the
halving loop does not terminate normally: `min_segl = 0 / max_nseg` never
reaches `1`, `max_nseg` is halved from `1` to `0`, and the recomputation of
`min_segl` divides by zero (the `none` result). -/
theorem c2_halving_counterexample :
    smp_metrics 0 10 1 = none ∧ (0 : Nat) < 1 :=
  ⟨rfl, Nat.zero_lt_one⟩

/-- Claim C2, amended: the halving loop terminates normally — with
`min_segl ≥ minimal_record_size` — provided the initial
`max_nseg = (seg1 / 10) mod 2^32` is nonzero and the data capacity can hold
at least one record (`objsize ≤ spc`); otherwise `max_nseg` is driven to
zero and the recomputation of `min_segl` divides by zero. -/
theorem c2_halving_amended (spc seg1 objsize : Nat)
    (h1 : seg1 / 10 % 2 ^ 32 ≠ 0) (h2 : objsize ≤ spc) :
    ∃ r, smp_metrics spc seg1 objsize = some r ∧ objsize ≤ r.min_segl := by
  obtain ⟨m, s, hl⟩ := halveAux_isSome spc objsize _ _
    (Nat.pos_of_ne_zero h1) (Nat.le_refl _) h2
  refine ⟨_, smp_metrics_eq_some spc seg1 objsize m s hl, ?_⟩
  obtain ⟨hs, hobj, _, _⟩ := halveAux_sound spc objsize _ _ _ _ hl
  simpa using hobj

/-- Claim C2, witness: the amended statement on the spec's reference
scenario. -/
theorem c2_halving_witness :
    (1048576 : Nat) / 10 % 2 ^ 32 ≠ 0 ∧ (64 : Nat) ≤ 104857600 ∧
    ∃ r, smp_metrics 104857600 1048576 64 = some r ∧ 64 ≤ r.min_segl :=
  ⟨by decide, by decide,
   c2_halving_amended 104857600 1048576 64 (by decide) (by decide)⟩

/-! ### Claim C3 -/

/-- Claim C3: the derivation computes, with integer division,
`min_nseg = 10`, `max_segl = spc / 10`, the final `(max_nseg, min_segl)`
by the halving loop started at the initial `max_nseg = seg1 / 10`,
`min_segl = spc / max_nseg` (for the final `max_nseg`),
`aim_segl = spc / aim_nseg` and `free_reserve = aim_segl * 10`.  The bounds
`spc < 2^60` and `seg1 < 2^35` keep the quantities inside the C types
(`unsigned` for `max_nseg`, 64 bits for `free_reserve`), where the
truncations in the two assignments are the identity. -/
theorem c3_formulas (spc seg1 objsize : Nat) (r : SmpSC)
    (h : smp_metrics spc seg1 objsize = some r)
    (hspc : spc < 2 ^ 60) (hseg : seg1 < 2 ^ 35) :
    r.min_nseg = 10 ∧
    r.max_segl = spc / 10 ∧
    smp_halve_loop spc objsize (seg1 / 10) = some (r.max_nseg, r.min_segl) ∧
    r.min_segl = spc / r.max_nseg ∧
    r.aim_segl = spc / r.aim_nseg ∧
    r.free_reserve = r.aim_segl * 10 := by
  obtain ⟨m, s, hl, hr⟩ := smp_metrics_some_inv _ _ _ _ h
  subst hr
  have hdiv : seg1 / 10 < 2 ^ 32 :=
    (Nat.div_lt_iff_lt_mul (by norm_num)).mpr (lt_of_lt_of_le hseg (by norm_num))
  have hmod : seg1 / 10 % 2 ^ 32 = seg1 / 10 := Nat.mod_eq_of_lt hdiv
  obtain ⟨hs, _, _, _⟩ := halveAux_sound spc objsize _ _ _ _ hl
  rw [hmod] at hl
  have hfree : spc / Nat.sqrt (10 * m) * 10 < 2 ^ 64 := by
    have hle : spc / Nat.sqrt (10 * m) ≤ spc := Nat.div_le_self _ _
    omega
  exact ⟨rfl, rfl, by rw [hl, hs], by simpa using hs, rfl,
    by simpa using Nat.mod_eq_of_lt hfree⟩

/-- Claim C3, witness: the formulas on the spec's reference scenario. -/
theorem c3_formulas_witness :
    smp_metrics 104857600 1048576 64 = some rbig ∧
    (104857600 : Nat) < 2 ^ 60 ∧ (1048576 : Nat) < 2 ^ 35 ∧
    (rbig.min_nseg = 10 ∧
     rbig.max_segl = 104857600 / 10 ∧
     smp_halve_loop 104857600 64 (1048576 / 10) = some (rbig.max_nseg, rbig.min_segl) ∧
     rbig.min_segl = 104857600 / rbig.max_nseg ∧
     rbig.aim_segl = 104857600 / rbig.aim_nseg ∧
     rbig.free_reserve = rbig.aim_segl * 10) :=
  ⟨smp_metrics_big, by norm_num, by norm_num,
   c3_formulas 104857600 1048576 64 rbig smp_metrics_big (by norm_num) (by norm_num)⟩

/-! ### Claim C4 -/

/-- Claim C4, counterexample: on the spec's reference scenario
(`min_nseg = 10`, `max_nseg = 104857`) the code truncates the geometric
mean `sqrt 1048570 ≈ 1023.997` to `1023`, while the claim's
round-to-nearest formula gives `1024`. -/
theorem c4_aim_counterexample :
    smp_metrics 104857600 1048576 64 = some rbig ∧
    rbig.min_nseg = 10 ∧ rbig.max_nseg = 104857 ∧
    rbig.aim_nseg = 1023 ∧
    roundGeomMean 10 104857 = 1024 ∧
    rbig.aim_nseg ≠ roundGeomMean 10 104857 := by
  have hround : roundGeomMean 10 104857 = 1024 := by
    simp only [roundGeomMean]
    rw [show (10 : Nat) * 104857 = 1048570 by norm_num, sqrt_1048570]
    norm_num
  exact ⟨smp_metrics_big, rfl, rfl, rfl, hround, by rw [hround]; decide⟩

/-- Claim C4, amended: `aim_nseg` is the geometric mean of `min_nseg` and
`max_nseg` truncated toward zero (the C cast `(unsigned)` applied to
`exp((log+log)/2)`), i.e. `Nat.sqrt (min_nseg * max_nseg)`; on the
reference scenario this is `1023`, not `1024`. -/
theorem c4_aim_amended (spc seg1 objsize : Nat) (r : SmpSC)
    (h : smp_metrics spc seg1 objsize = some r) :
    r.aim_nseg = Nat.sqrt (r.min_nseg * r.max_nseg) := by
  obtain ⟨m, s, hl, hr⟩ := smp_metrics_some_inv _ _ _ _ h
  subst hr
  rfl

/-- Claim C4, witness: the amended statement on the reference scenario. -/
theorem c4_aim_witness :
    smp_metrics 104857600 1048576 64 = some rbig ∧
    rbig.aim_nseg = Nat.sqrt (rbig.min_nseg * rbig.max_nseg) :=
  ⟨smp_metrics_big, c4_aim_amended 104857600 1048576 64 rbig smp_metrics_big⟩

/-! ### Claim C5 -/

/-- Claim C5: on every silo whose derivation completes (the minimal record
size being positive, as `sizeof(struct object)` always is) with
`aim_nseg > 10`, the free reserve is strictly below the usable data
capacity. -/
theorem c5_free_reserve_lt (spc seg1 objsize : Nat) (r : SmpSC)
    (h : smp_metrics spc seg1 objsize = some r) (hobj : 0 < objsize)
    (ha : 10 < r.aim_nseg) :
    r.free_reserve < spc := by
  obtain ⟨m, s, hl, hr⟩ := smp_metrics_some_inv _ _ _ _ h
  subst hr
  simp only at ha ⊢
  obtain ⟨hs, hol, hm, _⟩ := halveAux_sound spc objsize _ _ _ _ hl
  have hspc : 1 ≤ spc := by
    have : objsize ≤ spc := le_trans hol (hs ▸ Nat.div_le_self _ _)
    omega
  have h11 : 11 ≤ Nat.sqrt (10 * m) := ha
  calc spc / Nat.sqrt (10 * m) * 10 % 2 ^ 64
      ≤ spc / Nat.sqrt (10 * m) * 10 := Nat.mod_le _ _
    _ ≤ spc / 11 * 10 :=
        Nat.mul_le_mul_right 10 (Nat.div_le_div_left h11 (by norm_num))
    _ < spc := by omega

/-- Claim C5, witness: the spec's reference scenario has
`aim_nseg = 1023 > 10` and `free_reserve = 1025000 < 104857600`. -/
theorem c5_free_reserve_witness :
    smp_metrics 104857600 1048576 64 = some rbig ∧ (0 : Nat) < 64 ∧
    10 < rbig.aim_nseg ∧ rbig.free_reserve < 104857600 :=
  ⟨smp_metrics_big, by decide, by decide,
   c5_free_reserve_lt 104857600 1048576 64 rbig smp_metrics_big
     (by decide) (by decide)⟩

/-! ### Claim C9 -/

/-- Claim C9: the divisions by `max_nseg` are unguarded.  The derivation
faults with a division by zero (`none`) exactly when the initial
`max_nseg` — `seg1 / 10` truncated to `unsigned` — is zero, or when the
data capacity cannot hold one record (`spc < objsize`), in which case the
halving drives `max_nseg` to zero before `min_segl` reaches `objsize`.  In
particular a segment-table capacity under 10 bytes always faults. -/
theorem c9_division_by_zero (spc seg1 objsize : Nat) :
    (seg1 / 10 = 0 → smp_metrics spc seg1 objsize = none) ∧
    (smp_metrics spc seg1 objsize = none ↔
      seg1 / 10 % 2 ^ 32 = 0 ∨ spc < objsize) := by
  have hiff : smp_metrics spc seg1 objsize = none ↔
      seg1 / 10 % 2 ^ 32 = 0 ∨ spc < objsize := by
    constructor
    · intro h
      by_contra hc
      push_neg at hc
      obtain ⟨h1, h2⟩ := hc
      obtain ⟨m, s, hl⟩ := halveAux_isSome spc objsize _ _
        (Nat.pos_of_ne_zero h1) (Nat.le_refl _) h2
      rw [smp_metrics_eq_some spc seg1 objsize m s hl] at h
      exact absurd h (by simp)
    · intro h
      rcases h with h | h
      · simp only [smp_metrics, smp_halve_loop, h]
        rfl
      · have hn : smp_halve_loop spc objsize (seg1 / 10 % 2 ^ 32) = none :=
          halveAux_none spc objsize h _ _
        simp only [smp_metrics, hn]
  refine ⟨fun h0 => hiff.mpr (Or.inl (by rw [h0]; simp)), hiff⟩

/-! ### Facts about the bring-up control flow -/

/-- The drift branch emits at most the one warning. -/
theorem driftActions_cases (target : Option Nat) (base : Nat) :
    driftActions target base = [] ∨
    driftActions target base = [InitAction.driftWarning] := by
  unfold driftActions
  split
  · exact Or.inr rfl
  · exact Or.inl rfl

/-! ### Claim C6 -/

/-- Claim C6: when a preferred target exists (a valid "SILO" signature with
a nonzero recorded address) but the mapping lands at a different address,
and validation of the mapped silo succeeds, bring-up completes with the
mapping it got, emitting exactly the truncation, the mapping, the single
non-fatal drift warning and the sizing call — no reinitialization, no
fatal error. -/
theorem c6_drift (e : InitEnv) (base : Nat)
    (h1 : e.ac = 2) (h2 : e.getFileRes ≠ 2) (h3 : e.signSize ≤ e.mediasize)
    (h4 : e.sgnIsSilo = true) (h5 : e.sgnMapped ≠ 0)
    (h6 : e.mmapRes = some base) (h7 : base ≠ e.sgnMapped)
    (h8 : e.validFresh = 0) :
    smp_mgt_init e =
      ([.truncateFile, .mmapCall, .driftWarning, .metricsCall], .ok base) := by
  have hne : ¬ e.mediasize < e.signSize := Nat.not_lt.mpr h3
  have htar : targetOf e = some e.sgnMapped := by
    simp [targetOf, h4, h5]
  have hdrift : driftActions (targetOf e) base = [InitAction.driftWarning] := by
    rw [htar]
    have hne2 : e.sgnMapped ≠ base := fun h => h7 h.symm
    simp [driftActions, hne2]
  simp [smp_mgt_init, h1, h2, hne, h6, h8, hdrift]

/-- Claim C6, witness: the drift scenario `envDrift` (recorded address
`4096`, mapping landed at `65536`). -/
theorem c6_drift_witness :
    envDrift.ac = 2 ∧ envDrift.getFileRes ≠ 2 ∧
    envDrift.signSize ≤ envDrift.mediasize ∧ envDrift.sgnIsSilo = true ∧
    envDrift.sgnMapped ≠ 0 ∧ envDrift.mmapRes = some 65536 ∧
    (65536 : Nat) ≠ envDrift.sgnMapped ∧ envDrift.validFresh = 0 ∧
    smp_mgt_init envDrift =
      ([.truncateFile, .mmapCall, .driftWarning, .metricsCall], .ok 65536) :=
  ⟨rfl, by decide, by decide, rfl, by decide, rfl, by decide, rfl,
   c6_drift envDrift 65536 rfl (by decide) (by decide) rfl (by decide) rfl
     (by decide) rfl⟩

/-! ### Claim C7 -/

/-- Claim C7: once the silo is mapped, bring-up validates it; on a
validation failure it reinitializes exactly once (`smp_newsilo` appears
exactly once among the performed actions) and re-validates; a second
validation failure after reinitialization aborts bring-up with the failed
`AZ` assertion, while a successful re-validation lets bring-up finish. -/
theorem c7_revalidate (e : InitEnv) (base : Nat)
    (h1 : e.ac = 2) (h2 : e.getFileRes ≠ 2) (h3 : e.signSize ≤ e.mediasize)
    (h6 : e.mmapRes = some base) (hv : e.validFresh ≠ 0) :
    InitAction.newSilo ∈ (smp_mgt_init e).1 ∧
    (smp_mgt_init e).1.count InitAction.newSilo = 1 ∧
    (e.validAfterNew ≠ 0 →
      (smp_mgt_init e).2 = .error .assertValidFailed) ∧
    (e.validAfterNew = 0 → (smp_mgt_init e).2 = .ok base) := by
  have hne : ¬ e.mediasize < e.signSize := Nat.not_lt.mpr h3
  rcases driftActions_cases (targetOf e) base with hd | hd <;>
    by_cases hV : e.validAfterNew ≠ 0 <;>
      simp [smp_mgt_init, h1, h2, hne, h6, hv, hd, hV, List.count_cons,
        List.count_append]

/-- Claim C7, witness: the doubly-invalid scenario `envStale`
(first validation reason `7`, post-reinitialization reason `3`). -/
theorem c7_revalidate_witness :
    envStale.ac = 2 ∧ envStale.getFileRes ≠ 2 ∧
    envStale.signSize ≤ envStale.mediasize ∧
    envStale.mmapRes = some 32768 ∧ envStale.validFresh ≠ 0 ∧
    (InitAction.newSilo ∈ (smp_mgt_init envStale).1 ∧
     (smp_mgt_init envStale).1.count InitAction.newSilo = 1 ∧
     (envStale.validAfterNew ≠ 0 →
       (smp_mgt_init envStale).2 = .error .assertValidFailed) ∧
     (envStale.validAfterNew = 0 → (smp_mgt_init envStale).2 = .ok 32768)) :=
  ⟨rfl, by decide, by decide, rfl, by decide,
   c7_revalidate envStale 32768 rfl (by decide) (by decide) rfl (by decide)⟩

/-! ### Claim C8 -/

/-- Claim C8: with a wrong argument count or a path that resolves to a
directory, bring-up stops at one of the two `ARGV_ERR` configuration
errors having performed no action at all — in particular neither the
`ftruncate` nor the `mmap`. -/
theorem c8_config_error (e : InitEnv) (h : e.ac ≠ 2 ∨ e.getFileRes = 2) :
    (smp_mgt_init e).1 = [] ∧
    InitAction.truncateFile ∉ (smp_mgt_init e).1 ∧
    InitAction.mmapCall ∉ (smp_mgt_init e).1 ∧
    ((smp_mgt_init e).2 = .error .argvArity ∨
     (smp_mgt_init e).2 = .error .argvDirectory) := by
  by_cases hA : e.ac ≠ 2
  · simp [smp_mgt_init, hA]
  · have hG : e.getFileRes = 2 := by tauto
    simp [smp_mgt_init, hA, hG]

/-- Claim C8, witness: the directory scenario `envDir` (`STV_GetFile`
returned `2` on a well-formed two-argument invocation). -/
theorem c8_config_error_witness :
    (envDir.ac ≠ 2 ∨ envDir.getFileRes = 2) ∧
    ((smp_mgt_init envDir).1 = [] ∧
     InitAction.truncateFile ∉ (smp_mgt_init envDir).1 ∧
     InitAction.mmapCall ∉ (smp_mgt_init envDir).1 ∧
     ((smp_mgt_init envDir).2 = .error .argvArity ∨
      (smp_mgt_init envDir).2 = .error .argvDirectory)) :=
  ⟨Or.inr rfl, c8_config_error envDir (Or.inr rfl)⟩

/-! ### Claim C10 -/

/-- Claim C10: after the two argument checks pass, the file is truncated to
`mediasize` and the identity record is read back under
`assert(i == sizeof sgn)`; when `mediasize` is smaller than the record the
read is short and bring-up aborts through that assertion — an assertion
failure, not one of the two diagnosed `ARGV_ERR` configuration errors. -/
theorem c10_short_read (e : InitEnv)
    (h1 : e.ac = 2) (h2 : e.getFileRes ≠ 2)
    (h : e.mediasize < e.signSize) :
    smp_mgt_init e = ([.truncateFile], .error .assertReadShort) ∧
    InitError.assertReadShort ≠ .argvArity ∧
    InitError.assertReadShort ≠ .argvDirectory := by
  refine ⟨?_, by decide, by decide⟩
  simp [smp_mgt_init, h1, h2, h]

/-- Claim C10, witness: the undersized scenario `envTiny` (`mediasize = 64`
below a 512-byte identity record). -/
theorem c10_short_read_witness :
    envTiny.ac = 2 ∧ envTiny.getFileRes ≠ 2 ∧
    envTiny.mediasize < envTiny.signSize ∧
    (smp_mgt_init envTiny = ([.truncateFile], .error .assertReadShort) ∧
     InitError.assertReadShort ≠ .argvArity ∧
     InitError.assertReadShort ≠ .argvDirectory) :=
  ⟨rfl, by decide, by decide,
   c10_short_read envTiny rfl (by decide) (by decide)⟩

end Smp
